import Mathlib

/-!
# Verification of the Calo meal-analysis integration layer

Shallow embedding of the two source files:
* `server/src/services/openai.ts` — `OpenAIService`: request-key derivation,
  TTL cache (`requestCache`), in-flight dedup (`requestQueue`), response
  normalisation (`parseAnalysisResponse`) and the randomized fallback
  generator (`generateEnhancedFallbackAnalysis`).
* `client/src/services/api.ts` — `retryRequest` (bounded retry with
  exponential backoff), the response interceptor (401 token clearing) and
  `NutritionAPI.analyzeMeal` in-flight dedup.

JavaScript machine numbers are modelled as `Rat`; `NaN` is modelled as
`Option Rat = none` at the point where `Number(...)` coercion happens (the
only place a `NaN` can arise in the analysed code paths, since parsed JSON
carries no `NaN`). Timestamps (`Date.now()`) are `Nat` milliseconds.
`Map` objects are association lists in insertion order, matching the
iteration order of a JavaScript `Map` (`keys().next()` is the
oldest-inserted key; `set` on an existing key updates in place).
-/

/-! ## JavaScript value model -/

/-- A JavaScript value as reachable from `parsePartialJSON` output plus the
`undefined` produced by missing-property access. -/
inductive JSVal where
  | undefined : JSVal
  | null : JSVal
  | boolean (b : Bool) : JSVal
  | num (q : Rat) : JSVal
  | str (s : String) : JSVal
  | arr (elems : List JSVal) : JSVal
  | obj (fields : List (String × JSVal)) : JSVal

/-- Property access `v.k`: defined only on objects, `undefined` on other
non-nullish values (access on `null`/`undefined` throws and is handled at
the call sites that can receive those). -/
def jsGet (v : JSVal) (k : String) : JSVal :=
  match v with
  | .obj fields =>
    match fields.find? (fun f => f.1 == k) with
    | some f => f.2
    | none => .undefined
  | _ => .undefined

/-- JavaScript truthiness: `undefined`, `null`, `false`, `0`, `""` are falsy. -/
def jsTruthy (v : JSVal) : Bool :=
  match v with
  | .undefined => false
  | .null => false
  | .boolean b => b
  | .num q => q != 0
  | .str s => s != ""
  | .arr _ => true
  | .obj _ => true

/-- JavaScript `a || b`. -/
def jsOr (a b : JSVal) : JSVal :=
  if jsTruthy a then a else b

/-- Digit list to natural number (most significant first). -/
def digitsToNat (l : List Char) : Nat :=
  l.foldl (fun a c => a * 10 + (c.toNat - '0'.toNat)) 0

/-- Model of `Number(s)` for a string `s`: trims whitespace, empty means `0`, an
optionally signed decimal literal (`"450"`, `"4.5"`, `".5"`, `"5."`)
parses to its value, anything else is `NaN` (`none`). Exponent, hex and
`Infinity` forms are not produced by the meal-analysis payloads and map
to `none`. -/
def trimWsChars (l : List Char) : List Char :=
  ((l.dropWhile Char.isWhitespace).reverse.dropWhile Char.isWhitespace).reverse

def strToNumber (s : String) : Option Rat :=
  let t := trimWsChars s.toList
  if t.isEmpty then some 0
  else
    let (sign, rest) : Rat × List Char :=
      match t with
      | '-' :: cs => (-1, cs)
      | '+' :: cs => (1, cs)
      | cs => (1, cs)
    let intPart := rest.takeWhile Char.isDigit
    let rest2 := rest.dropWhile Char.isDigit
    match rest2 with
    | [] => if intPart.isEmpty then none else some (sign * (digitsToNat intPart : Rat))
    | '.' :: frac =>
      if frac.all Char.isDigit && !(intPart.isEmpty && frac.isEmpty) then
        some (sign * ((digitsToNat intPart : Rat) +
          (digitsToNat frac : Rat) / (10 ^ frac.length : Rat)))
      else none
    | _ => none

/-- JavaScript `Number(v)` coercion; `none` models `NaN`. -/
def jsNumber : JSVal → Option Rat
  | .undefined => none
  | .null => some 0
  | .boolean b => some (if b then 1 else 0)
  | .num q => some q
  | .str s => strToNumber s
  | .arr [] => some 0
  | .arr [v] =>
    match v with
    | .undefined => some 0
    | .null => some 0
    | w => jsNumber w
  | .arr (_ :: _ :: _) => none
  | .obj _ => none

/-- Model of `Number(v) || d`: the coercion with a default substituted for the falsy
results `NaN` and `0`. -/
def jsNumberOr (v : JSVal) (d : Rat) : Rat :=
  match jsNumber v with
  | none => d
  | some q => if q = 0 then d else q

/-- Model of `Number(v) || undefined`: `undefined` for the falsy results `NaN` and `0`. -/
def jsNumberOrUndef (v : JSVal) : Option Rat :=
  match jsNumber v with
  | none => none
  | some q => if q = 0 then none else some q

/-- Model of `Math.floor` on the rational model of a JS number. -/
def jsFloor (q : Rat) : Rat := (q.floor : Rat)

/-- Model of `Math.round` on the rational model of a JS number
(`Math.round x = Math.floor (x + 1/2)` for the values arising here). -/
def jsRound (q : Rat) : Rat := ((q + 1/2).floor : Rat)

/-! ## The server-side cache (`requestCache`) and its operations -/

/-- The constant `CACHE_DURATION = 10 * 60 * 1000` (10-minute TTL, milliseconds). -/
def CACHE_DURATION : Nat := 10 * 60 * 1000

/-- The constant `MAX_CACHE_SIZE = 100`. -/
def MAX_CACHE_SIZE : Nat := 100

/-- One `requestCache` value: `{ data, timestamp: Date.now() }`. -/
structure CacheEntry (α : Type) where
  data : α
  timestamp : Nat
deriving Repr, DecidableEq

/-- The `requestCache` `Map`, as an association list in insertion order
(a JavaScript `Map` iterates keys oldest-inserted first). -/
abbrev Cache (α : Type) : Type := List (String × CacheEntry α)

/-- Model of `Map.prototype.get`. -/
def mapGet {α : Type} (c : Cache α) (k : String) : Option (CacheEntry α) :=
  match c.find? (fun e => e.1 == k) with
  | some e => some e.2
  | none => none

/-- Model of `Map.prototype.set`: updates an existing key in place, appends a new key. -/
def mapSet {α : Type} (c : Cache α) (k : String) (v : CacheEntry α) : Cache α :=
  match c with
  | [] => [(k, v)]
  | e :: rest => if e.1 == k then (k, v) :: rest else e :: mapSet rest k v

/-- Model of `Map.prototype.delete`. -/
def mapDelete {α : Type} (c : Cache α) (k : String) : Cache α :=
  match c with
  | [] => []
  | e :: rest => if e.1 == k then rest else e :: mapDelete rest k

/-- Model of `OpenAIService.getCachedResponse`: a hit only when an entry exists and
`Date.now() - cached.timestamp < CACHE_DURATION`. -/
def getCachedResponse {α : Type} (c : Cache α) (key : String) (now : Nat) : Option α :=
  match mapGet c key with
  | some cached =>
    if now - cached.timestamp < CACHE_DURATION then some cached.data else none
  | none => none

/-- Model of `OpenAIService.setCachedResponse`: when the cache is at or above
`MAX_CACHE_SIZE`, delete the first key `requestCache.keys().next().value`
(the oldest-inserted one), then insert `{ data, timestamp: now }`. -/
def setCachedResponse {α : Type} (c : Cache α) (key : String) (data : α) (now : Nat) :
    Cache α :=
  let c1 :=
    if MAX_CACHE_SIZE ≤ c.length then
      match c.head? with
      | some oldest => mapDelete c oldest.1
      | none => c
    else c
  mapSet c1 key ⟨data, now⟩

/-! ## Request-key derivation and the analysis entry point -/

/-- Model of `prompt.replace(/\s+/g, '_')` on a character list: each maximal run of
whitespace becomes a single underscore. The flag records whether the
previous character was part of a whitespace run. -/
def collapseWsAux : Bool → List Char → List Char
  | _, [] => []
  | prevWs, c :: rest =>
    if c.isWhitespace then
      if prevWs then collapseWsAux true rest
      else '_' :: collapseWsAux true rest
    else c :: collapseWsAux false rest

/-- Model of `OpenAIService.createRequestKey`:
`` `${type}_${prompt.substring(0, 100).replace(/\s+/g, '_')}` ``. -/
def createRequestKey (prompt ty : String) : String :=
  ty ++ "_" ++ String.mk (collapseWsAux false (prompt.take 100).toList)

/-- The fingerprint `analyzeMealImage` derives:
`` createRequestKey(`${imageBase64.substring(0,50)}_${updateText || ''}_${language}`, "analyze") ``. -/
def analyzeRequestKey (imageBase64 language : String) (updateText : Option String) : String :=
  createRequestKey (imageBase64.take 50 ++ "_" ++ updateText.getD "" ++ "_" ++ language)
    "analyze"

/-- The mutable module state `analyzeMealImage` touches: the TTL cache and
the in-flight `requestQueue` (fingerprint ↦ identifier of the pending
promise). -/
structure ServerState (α : Type) where
  requestCache : Cache α
  requestQueue : List (String × Nat)

/-- What the synchronous prefix of `analyzeMealImage` does before any
`await`: return a cached value, adopt an existing in-flight promise, or
register and start a fresh underlying call. -/
inductive StartAction (α : Type) where
  | returnCached (data : α) : StartAction α
  | awaitExisting (pid : Nat) : StartAction α
  | startCall (pid : Nat) : StartAction α

/-- The synchronous prefix of `OpenAIService.analyzeMealImage` (up to the
first `await`, which in the cooperative host runs atomically): check the
cache, then the in-flight queue, else register `freshPid` as the new
in-flight promise. -/
def analyzeMealImageStart {α : Type} (s : ServerState α) (now : Nat)
    (imageBase64 language : String) (updateText : Option String) (freshPid : Nat) :
    StartAction α × ServerState α :=
  let requestKey := analyzeRequestKey imageBase64 language updateText
  match getCachedResponse s.requestCache requestKey now with
  | some cached => (.returnCached cached, s)
  | none =>
    match s.requestQueue.find? (fun p => p.1 == requestKey) with
    | some p => (.awaitExisting p.2, s)
    | none =>
      (.startCall freshPid,
       { s with requestQueue := s.requestQueue ++ [(requestKey, freshPid)] })

/-- The settlement continuation of `analyzeMealImage` on success:
`setCachedResponse(requestKey, result)`. (The `requestQueue.delete` runs
only after the 1000 ms grace timer, modelled by `analyzeMealImageCleanup`.) -/
def analyzeMealImageSettle {α : Type} (s : ServerState α)
    (imageBase64 language : String) (updateText : Option String)
    (result : α) (now : Nat) : ServerState α :=
  let requestKey := analyzeRequestKey imageBase64 language updateText
  { s with requestCache := setCachedResponse s.requestCache requestKey result now }

/-- The delayed `requestQueue.delete(requestKey)` of `analyzeMealImage`. -/
def analyzeMealImageCleanup {α : Type} (s : ServerState α)
    (imageBase64 language : String) (updateText : Option String) : ServerState α :=
  let requestKey := analyzeRequestKey imageBase64 language updateText
  { s with requestQueue := s.requestQueue.filter (fun p => !(p.1 == requestKey)) }

/-- Model of `OpenAIService.clearCaches`. -/
def clearCaches {α : Type} (_s : ServerState α) : ServerState α :=
  { requestCache := [], requestQueue := [] }

/-! ## `MealAnalysisResult` and the Normalizer -/

/-- The object `parseAnalysisResponse` builds. Fields that are always
numbers (built with `Number(..) || 0` or the confidence clamp) are `Rat`;
fields built with `Number(..) || undefined` are `Option Rat`; fields that
pass raw JavaScript values through (`parsed.x || default`) are `JSVal`.
Field defaults model absence from the fallback generator's object literal. -/
structure MealAnalysisResult where
  name : JSVal
  calories : Rat
  protein : Rat
  carbs : Rat
  fat : Rat
  fiber : Rat
  sugar : Rat
  sodium : Rat
  confidence : Rat
  ingredients : List JSVal
  servingSize : JSVal
  cookingMethod : JSVal
  healthNotes : JSVal
  saturated_fats_g : Option Rat := none
  polyunsaturated_fats_g : Option Rat := none
  monounsaturated_fats_g : Option Rat := none
  omega_3_g : Option Rat := none
  omega_6_g : Option Rat := none
  soluble_fiber_g : Option Rat := none
  insoluble_fiber_g : Option Rat := none
  cholesterol_mg : Option Rat := none
  alcohol_g : Option Rat := none
  caffeine_mg : Option Rat := none
  liquids_ml : Option Rat := none
  serving_size_g : Option Rat := none
  allergens_json : JSVal := .undefined
  vitamins_json : JSVal := .undefined
  micronutrients_json : JSVal := .undefined
  glycemic_index : Option Rat := none
  insulin_index : Option Rat := none
  food_category : JSVal := .undefined
  processing_level : JSVal := .undefined
  cooking_method : JSVal := .undefined
  additives_json : JSVal := .undefined
  health_risk_notes : JSVal := .undefined

/-- The try-branch of `OpenAIService.parseAnalysisResponse`: field-by-field
validation and normalisation of a successfully parsed raw object. -/
def normalizeAnalysis (parsed : JSVal) (language : String) : MealAnalysisResult :=
  { name := jsOr (jsGet parsed "name")
      (.str (if language = "hebrew" then "ארוחה" else "Meal")),
    calories := jsNumberOr (jsGet parsed "calories") 0,
    protein := jsNumberOr (jsGet parsed "protein") 0,
    carbs := jsNumberOr (jsGet parsed "carbs") 0,
    fat := jsNumberOr (jsGet parsed "fat") 0,
    fiber := jsNumberOr (jsGet parsed "fiber") 0,
    sugar := jsNumberOr (jsGet parsed "sugar") 0,
    sodium := jsNumberOr (jsGet parsed "sodium") 0,
    confidence := min 100 (max 1 (jsNumberOr (jsGet parsed "confidence") 75)),
    ingredients :=
      match jsGet parsed "ingredients" with
      | .arr elems => elems
      | _ => [],
    servingSize := jsOr (jsGet parsed "servingSize")
      (.str (if language = "hebrew" then "מנה אחת" else "1 serving")),
    cookingMethod := jsOr (jsGet parsed "cookingMethod")
      (.str (if language = "hebrew" then "לא ידוע" else "Unknown")),
    healthNotes := jsOr (jsGet parsed "healthNotes") (.str ""),
    saturated_fats_g := jsNumberOrUndef (jsGet parsed "saturated_fats_g"),
    polyunsaturated_fats_g := jsNumberOrUndef (jsGet parsed "polyunsaturated_fats_g"),
    monounsaturated_fats_g := jsNumberOrUndef (jsGet parsed "monounsaturated_fats_g"),
    omega_3_g := jsNumberOrUndef (jsGet parsed "omega_3_g"),
    omega_6_g := jsNumberOrUndef (jsGet parsed "omega_6_g"),
    soluble_fiber_g := jsNumberOrUndef (jsGet parsed "soluble_fiber_g"),
    insoluble_fiber_g := jsNumberOrUndef (jsGet parsed "insoluble_fiber_g"),
    cholesterol_mg := jsNumberOrUndef (jsGet parsed "cholesterol_mg"),
    alcohol_g := jsNumberOrUndef (jsGet parsed "alcohol_g"),
    caffeine_mg := jsNumberOrUndef (jsGet parsed "caffeine_mg"),
    liquids_ml := jsNumberOrUndef (jsGet parsed "liquids_ml"),
    serving_size_g := jsNumberOrUndef (jsGet parsed "serving_size_g"),
    allergens_json := jsOr (jsGet parsed "allergens_json") (.obj []),
    vitamins_json := jsOr (jsGet parsed "vitamins_json") (.obj []),
    micronutrients_json := jsOr (jsGet parsed "micronutrients_json") (.obj []),
    glycemic_index := jsNumberOrUndef (jsGet parsed "glycemic_index"),
    insulin_index := jsNumberOrUndef (jsGet parsed "insulin_index"),
    food_category := jsOr (jsGet parsed "food_category") (.str ""),
    processing_level := jsOr (jsGet parsed "processing_level") (.str ""),
    cooking_method := jsOr (jsGet parsed "cooking_method") (.str ""),
    additives_json := jsOr (jsGet parsed "additives_json") (.obj []),
    health_risk_notes := jsOr (jsGet parsed "health_risk_notes") .undefined }

/-! ## Fallback Generator -/

/-- Model of `OpenAIService.generateEnhancedFallbackAnalysis`. The ambient
`Math.random()` source is passed explicitly as `rand`: `rand i` is the
value of the `i`-th call to `Math.random()`, in source evaluation order
(each in `[0, 1)`). -/
def generateEnhancedFallbackAnalysis (language : String) (updateText : Option String)
    (rand : Nat → Rat) : MealAnalysisResult :=
  let isHebrew := language = "hebrew"
  let baseCalories : Rat := 300 + jsFloor (rand 0 * 400)
  let proteinPart : Rat := 15/100 + rand 1 * (15/100)
  let carbPart : Rat := 35/100 + rand 2 * (25/100)
  let fatPart : Rat := 1 - proteinPart - carbPart
  { name := .str (match updateText with
      | some u =>
        if isHebrew then "ארוחה מעודכנת - " ++ u.take 20
        else "Updated meal - " ++ u.take 20
      | none => if isHebrew then "ארוחה מנותחת" else "Analyzed meal"),
    calories := baseCalories,
    protein := jsRound (baseCalories * proteinPart / 4),
    carbs := jsRound (baseCalories * carbPart / 4),
    fat := jsRound (baseCalories * fatPart / 9),
    fiber := jsRound (3 + rand 3 * 7),
    sugar := jsRound (5 + rand 4 * 15),
    sodium := jsRound (200 + rand 5 * 600),
    confidence := 65,
    ingredients := [JSVal.obj [
      ("name", .str (if isHebrew then "מרכיב עיקרי" else "Main ingredient")),
      ("calories", .num (jsRound (baseCalories * (6/10)))),
      ("protein", .num (jsRound (baseCalories * proteinPart * (6/10) / 4))),
      ("carbs", .num (jsRound (baseCalories * carbPart * (6/10) / 4))),
      ("fat", .num (jsRound (baseCalories * fatPart * (6/10) / 9))),
      ("fiber", .num (jsRound (2 + rand 6 * 4))),
      ("sugar", .num (jsRound (3 + rand 7 * 8))),
      ("sodium_mg", .num (jsRound (100 + rand 8 * 300)))]],
    servingSize := .str (if isHebrew then "מנה בינונית" else "Medium serving"),
    cookingMethod := .str (if isHebrew then "בישול רגיל" else "Regular cooking"),
    healthNotes := .str (if isHebrew then
        "ניתוח זה מבוסס על הערכה כללית. לדיוק מירבי, אנא ספק פרטים נוספים."
      else
        "This analysis is based on general estimation. For maximum accuracy, please provide additional details.") }

/-! ## `parseAnalysisResponse` and `_performMealAnalysis` -/

/-- Model of `String.prototype.includes`. -/
def jsIncludes (s sub : String) : Bool :=
  decide (sub.toList <:+: s.toList)

/-- Model of `OpenAIService.parseAnalysisResponse`. The composition
`parsePartialJSON ∘ extractCleanJSON` lives in `../utils/openai`, outside
the sources, so it is an abstract parameter `parse`; `parse content = none`
models it throwing (`ParseFailed`). A parse result of `null`/`undefined`
makes the first property access throw inside the same `try`, so those also
reach the catch branch. Every throwing path returns the Fallback Generator
result `generateEnhancedFallbackAnalysis(language)` (no `updateText`). -/
def parseAnalysisResponse (parse : String → Option JSVal) (content language : String)
    (rand : Nat → Rat) : MealAnalysisResult :=
  match parse content with
  | none => generateEnhancedFallbackAnalysis language none rand
  | some .null => generateEnhancedFallbackAnalysis language none rand
  | some .undefined => generateEnhancedFallbackAnalysis language none rand
  | some parsed => normalizeAnalysis parsed language

/-- The error object the catch-branch of `_performMealAnalysis` inspects:
`error.code` and `error.message`. -/
structure UpstreamError where
  code : Option String
  message : String
deriving Repr, DecidableEq

/-- Outcome of the `openai.chat.completions.create` call:
either it throws, or it returns a response whose
`choices[0]?.message?.content` is the given optional string. -/
inductive UpstreamOutcome where
  | success (content : Option String) : UpstreamOutcome
  | failure (e : UpstreamError) : UpstreamOutcome

/-- Model of `OpenAIService._performMealAnalysis`, as a function of the upstream
call's outcome. `openaiAvailable` is `openai !== null` (an API key is
configured). `.error` models the rethrown `new Error(...)` with its
message; missing upstream content throws inside the `try` and its error
(no `code`, message without `"timeout"`) reaches the fallback branch of
the `catch`. -/
def performMealAnalysis (parse : String → Option JSVal) (openaiAvailable : Bool)
    (outcome : UpstreamOutcome) (language : String) (updateText : Option String)
    (rand : Nat → Rat) : Except String MealAnalysisResult :=
  if !openaiAvailable then
    .ok (generateEnhancedFallbackAnalysis language updateText rand)
  else
    match outcome with
    | .success (some content) => .ok (parseAnalysisResponse parse content language rand)
    | .success none =>
      .ok (generateEnhancedFallbackAnalysis language updateText rand)
    | .failure e =>
      if e.code == some "rate_limit_exceeded" then
        .error "AI service is busy. Please try again in a moment."
      else if e.code == some "insufficient_quota" then
        .error "AI analysis quota exceeded. Please try again later."
      else if jsIncludes e.message "timeout" then
        .error "Analysis is taking too long. Please try again."
      else
        .ok (generateEnhancedFallbackAnalysis language updateText rand)

/-! ## Client: `API_CONFIG`, `retryRequest`, interceptor, `analyzeMeal` -/

/-- The `API_CONFIG` constant of `client/src/services/api.ts`. -/
structure ApiConfig where
  timeout : Nat
  retryAttempts : Nat
  retryDelay : Nat
  maxRetryDelay : Nat
deriving Repr

/-- The value `{ timeout: 30000, retryAttempts: 3, retryDelay: 1000, maxRetryDelay: 5000 }`. -/
def API_CONFIG : ApiConfig :=
  { timeout := 30000, retryAttempts := 3, retryDelay := 1000, maxRetryDelay := 5000 }

/-- The parts of a thrown request error that `retryRequest` and the
response interceptor inspect: `error.response?.status` and `error.name`. -/
structure ApiError where
  status : Option Nat
  name : Option String
deriving Repr, DecidableEq

/-- What one run of `retryRequest` produces: the settled result, the index
(counted from 1) of the final attempt actually made, and the list of
backoff delays slept, in order (`delays[i]` separates attempt `i+1` from
attempt `i+2`). -/
structure RetryOutcome (α : Type) where
  result : Except ApiError α
  finalAttempt : Nat
  delays : List Nat
deriving Repr

/-- Model of `retryRequest(requestFn, attempt)`. `results n` is the outcome of the
`n`-th invocation of `requestFn`. Mirrors the source guard order: give up
when `attempt >= API_CONFIG.retryAttempts`; rethrow without retry on
status 401/403/422 or an `AbortError`; otherwise sleep
`min(retryDelay * 2^(attempt-1), maxRetryDelay)` and recurse with
`attempt + 1`. -/
def retryRequest {α : Type} (results : Nat → Except ApiError α) (attempt : Nat) :
    RetryOutcome α :=
  match results attempt with
  | .ok v => ⟨.ok v, attempt, []⟩
  | .error e =>
    if h : API_CONFIG.retryAttempts ≤ attempt then ⟨.error e, attempt, []⟩
    else if e.status == some 401 || e.status == some 403 || e.status == some 422
        || e.name == some "AbortError" then ⟨.error e, attempt, []⟩
    else
      let delay := min (API_CONFIG.retryDelay * 2 ^ (attempt - 1)) API_CONFIG.maxRetryDelay
      let rest := retryRequest results (attempt + 1)
      ⟨rest.result, rest.finalAttempt, delay :: rest.delays⟩
termination_by API_CONFIG.retryAttempts - attempt
decreasing_by omega

/-- The token storage locations the client touches: web `localStorage`
(`"auth_token"`), native `SecureStore` (`"auth_token_secure"`) and native
`AsyncStorage` (`"auth_token"`). -/
structure TokenStore where
  webToken : Option String
  secureToken : Option String
  asyncToken : Option String
deriving Repr, DecidableEq

/-- The error branch of `api.interceptors.response`: on HTTP 401 clear the
stored auth token (web: `localStorage.removeItem`; native: delete from
SecureStore and AsyncStorage); every error is re-rejected unchanged. -/
def responseErrorInterceptor (platformWeb : Bool) (store : TokenStore) (e : ApiError) :
    TokenStore × ApiError :=
  if e.status == some 401 then
    if platformWeb then ({ store with webToken := none }, e)
    else ({ store with secureToken := none, asyncToken := none }, e)
  else (store, e)

/-- The dedup key of `NutritionAPI.analyzeMeal`:
`` `analyze_${imageBase64.substring(0, 50)}_${updateText || ''}` ``. -/
def clientAnalyzeKey (imageBase64 : String) (updateText : Option String) : String :=
  "analyze_" ++ imageBase64.take 50 ++ "_" ++ updateText.getD ""

/-- The synchronous prefix of `NutritionAPI.analyzeMeal`: adopt an existing
in-flight request or register a fresh one (there is no response cache on
the client path, only the `requestQueue`). -/
inductive ClientStartAction where
  | awaitExisting (pid : Nat) : ClientStartAction
  | startCall (pid : Nat) : ClientStartAction

/-- Model of `NutritionAPI.analyzeMeal` up to its first `await`: check
`this.requestQueue`, else `requestQueue.set(requestKey, requestPromise)`. -/
def analyzeMealStart (queue : List (String × Nat)) (imageBase64 : String)
    (updateText : Option String) (freshPid : Nat) :
    ClientStartAction × List (String × Nat) :=
  let requestKey := clientAnalyzeKey imageBase64 updateText
  match queue.find? (fun p => p.1 == requestKey) with
  | some p => (.awaitExisting p.2, queue)
  | none => (.startCall freshPid, queue ++ [(requestKey, freshPid)])

/-! ## Map and cache lemmas -/

theorem mapDelete_cons_self {α : Type} (e : String × CacheEntry α) (rest : List (String × CacheEntry α)) :
    mapDelete (e :: rest) e.1 = rest := by
  simp [mapDelete]

theorem mapSet_length_le {α : Type} (c : Cache α) (k : String) (v : CacheEntry α) :
    (mapSet c k v).length ≤ c.length + 1 := by
  induction c with
  | nil => simp [mapSet]
  | cons e rest ih =>
    simp only [mapSet]
    split
    · simp
    · simpa using Nat.succ_le_succ ih

theorem mapGet_cons_none {α : Type} (e : String × CacheEntry α)
    (rest : List (String × CacheEntry α)) (k : String)
    (h : mapGet (e :: rest) k = none) : (e.1 == k) = false ∧ mapGet rest k = none := by
  unfold mapGet at h ⊢
  rw [List.find?_cons] at h
  cases hb : (e.1 == k) with
  | true => rw [hb] at h; simp at h
  | false =>
    rw [hb] at h
    exact ⟨rfl, h⟩

theorem mapSet_of_get_none {α : Type} (c : Cache α) (k : String) (v : CacheEntry α)
    (h : mapGet c k = none) : mapSet c k v = c ++ [(k, v)] := by
  induction c with
  | nil => simp [mapSet]
  | cons e rest ih =>
    obtain ⟨hb, hrest⟩ := mapGet_cons_none e rest k h
    simp only [mapSet, hb]
    simp [ih hrest]

theorem getCachedResponse_none_mono {α : Type} (c : Cache α) (k : String) (t1 t2 : Nat)
    (h12 : t1 ≤ t2) (h : getCachedResponse c k t1 = none) :
    getCachedResponse c k t2 = none := by
  cases hm : mapGet c k with
  | none => simp [getCachedResponse, hm]
  | some e =>
    have h1 : ¬ (t1 - e.timestamp < CACHE_DURATION) := by
      intro hlt
      simp [getCachedResponse, hm, hlt] at h
    have h2 : ¬ (t2 - e.timestamp < CACHE_DURATION) := fun hlt2 =>
      h1 (lt_of_le_of_lt (Nat.sub_le_sub_right h12 _) hlt2)
    simp [getCachedResponse, hm, h2]

theorem setCachedResponse_length_le {α : Type} (c : Cache α) (k : String) (d : α) (t : Nat)
    (h : c.length ≤ MAX_CACHE_SIZE) :
    (setCachedResponse c k d t).length ≤ MAX_CACHE_SIZE := by
  unfold setCachedResponse
  by_cases hfull : MAX_CACHE_SIZE ≤ c.length
  · have hlen : c.length = MAX_CACHE_SIZE := le_antisymm h hfull
    match c, hlen with
    | e :: rest, hlen =>
      simp only [if_pos hfull, List.head?_cons, mapDelete_cons_self]
      calc (mapSet rest k ⟨d, t⟩).length ≤ rest.length + 1 := mapSet_length_le ..
        _ = (e :: rest).length := by simp
        _ = MAX_CACHE_SIZE := hlen
  · rw [if_neg hfull]
    calc (mapSet c k ⟨d, t⟩).length ≤ c.length + 1 := mapSet_length_le ..
      _ ≤ MAX_CACHE_SIZE := by omega

set_option maxRecDepth 8000

/-! ## Claim theorems: cache behaviour -/

/-- C7: a cache read at elapsed time `now - timestamp < CACHE_DURATION` returns
exactly the stored value, and `analyzeMealImage` then answers from the cache
with no underlying call; a read at elapsed time `≥ CACHE_DURATION` returns
nothing, and `analyzeMealImage` (with no in-flight registration for the
fingerprint) starts a fresh underlying computation. -/
theorem cache_ttl_semantics {α : Type} :
    (∀ (c : Cache α) (key : String) (e : CacheEntry α) (now : Nat),
      mapGet c key = some e → now - e.timestamp < CACHE_DURATION →
      getCachedResponse c key now = some e.data)
    ∧ (∀ (c : Cache α) (key : String) (e : CacheEntry α) (now : Nat),
      mapGet c key = some e → CACHE_DURATION ≤ now - e.timestamp →
      getCachedResponse c key now = none)
    ∧ (∀ (s : ServerState α) (now : Nat) (img lang : String) (upd : Option String)
        (p : Nat) (e : CacheEntry α),
      mapGet s.requestCache (analyzeRequestKey img lang upd) = some e →
      now - e.timestamp < CACHE_DURATION →
      (analyzeMealImageStart s now img lang upd p).1 = .returnCached e.data)
    ∧ (∀ (s : ServerState α) (now : Nat) (img lang : String) (upd : Option String)
        (p : Nat) (e : CacheEntry α),
      mapGet s.requestCache (analyzeRequestKey img lang upd) = some e →
      CACHE_DURATION ≤ now - e.timestamp →
      s.requestQueue.find? (fun q => q.1 == analyzeRequestKey img lang upd) = none →
      (analyzeMealImageStart s now img lang upd p).1 = .startCall p) := by
  have hhit : ∀ (c : Cache α) (key : String) (e : CacheEntry α) (now : Nat),
      mapGet c key = some e → now - e.timestamp < CACHE_DURATION →
      getCachedResponse c key now = some e.data := by
    intro c key e now hm hlt
    simp [getCachedResponse, hm, hlt]
  have hmiss : ∀ (c : Cache α) (key : String) (e : CacheEntry α) (now : Nat),
      mapGet c key = some e → CACHE_DURATION ≤ now - e.timestamp →
      getCachedResponse c key now = none := by
    intro c key e now hm hge
    simp [getCachedResponse, hm, Nat.not_lt.mpr hge]
  refine ⟨hhit, hmiss, ?_, ?_⟩
  · intro s now img lang upd p e hm hlt
    have := hhit s.requestCache (analyzeRequestKey img lang upd) e now hm hlt
    simp [analyzeMealImageStart, this]
  · intro s now img lang upd p e hm hge hq
    have := hmiss s.requestCache (analyzeRequestKey img lang upd) e now hm hge
    simp [analyzeMealImageStart, this, hq]

/-- Witness for C7 at a concrete cache: a hit at time 0 and a miss at
time `CACHE_DURATION` for an entry stored at time 0. -/
theorem cache_ttl_semantics_witness :
    getCachedResponse [("k", (⟨7, 0⟩ : CacheEntry Nat))] "k" 0 = some 7
    ∧ getCachedResponse [("k", (⟨7, 0⟩ : CacheEntry Nat))] "k" CACHE_DURATION = none :=
  ⟨(cache_ttl_semantics (α := Nat)).1 _ "k" ⟨7, 0⟩ 0 (by decide) (by decide),
   (cache_ttl_semantics (α := Nat)).2.1 _ "k" ⟨7, 0⟩ CACHE_DURATION (by decide) (by decide)⟩

/-- C8: inserting a new key into a cache holding exactly `MAX_CACHE_SIZE`
entries evicts exactly one entry, namely the oldest-inserted one (the head
of the insertion-ordered list); the size stays `MAX_CACHE_SIZE`. -/
theorem cache_eviction_oldest {α : Type} (c : Cache α) (key : String) (data : α) (now : Nat)
    (hfull : c.length = MAX_CACHE_SIZE) (hnew : mapGet c key = none) :
    setCachedResponse c key data now = c.tail ++ [(key, ⟨data, now⟩)]
    ∧ (setCachedResponse c key data now).length = MAX_CACHE_SIZE := by
  cases c with
  | nil => simp [MAX_CACHE_SIZE] at hfull
  | cons e rest =>
    have hge : MAX_CACHE_SIZE ≤ (e :: rest).length := le_of_eq hfull.symm
    obtain ⟨hb, hrest⟩ := mapGet_cons_none e rest key hnew
    have hs : setCachedResponse (e :: rest) key data now = rest ++ [(key, ⟨data, now⟩)] := by
      simp only [setCachedResponse, if_pos hge, List.head?_cons]
      rw [mapDelete_cons_self, mapSet_of_get_none rest key ⟨data, now⟩ hrest]
    refine ⟨by simpa using hs, ?_⟩
    rw [hs]
    simp only [List.length_append, List.length_cons, List.length_nil] at hfull ⊢
    omega

/-- Witness for C8: a full cache of 100 entries, a fresh key. -/
theorem cache_eviction_oldest_witness :
    setCachedResponse (List.replicate 100 (("k", ⟨0, 0⟩) : String × CacheEntry Nat)) "x" 5 3
      = (List.replicate 100 (("k", ⟨0, 0⟩) : String × CacheEntry Nat)).tail
        ++ [("x", ⟨5, 3⟩)]
    ∧ (setCachedResponse (List.replicate 100 (("k", ⟨0, 0⟩) : String × CacheEntry Nat)) "x" 5 3).length
      = MAX_CACHE_SIZE :=
  cache_eviction_oldest (List.replicate 100 (("k", ⟨0, 0⟩) : String × CacheEntry Nat))
    "x" 5 3 (by decide) (by decide)

/-- C10: the `requestCache` never exceeds `MAX_CACHE_SIZE` entries: its only
write path, `setCachedResponse` (used by `analyzeMealImage`,
`updateMealAnalysis`, `generateText` and `generateMealPlan` alike),
preserves the bound by evicting before inserting at capacity;
`getCachedResponse` and the start/cleanup phases of `analyzeMealImage`
leave the cache untouched, and `clearCaches` empties it. -/
theorem cache_size_invariant {α : Type} :
    (∀ (c : Cache α) (key : String) (data : α) (now : Nat),
      c.length ≤ MAX_CACHE_SIZE → (setCachedResponse c key data now).length ≤ MAX_CACHE_SIZE)
    ∧ (∀ (s : ServerState α) (now : Nat) (img lang : String) (upd : Option String) (p : Nat),
      ((analyzeMealImageStart s now img lang upd p).2).requestCache = s.requestCache)
    ∧ (∀ (s : ServerState α) (img lang : String) (upd : Option String) (res : α) (now : Nat),
      s.requestCache.length ≤ MAX_CACHE_SIZE →
      ((analyzeMealImageSettle s img lang upd res now).requestCache).length ≤ MAX_CACHE_SIZE)
    ∧ (∀ (s : ServerState α) (img lang : String) (upd : Option String),
      (analyzeMealImageCleanup s img lang upd).requestCache = s.requestCache)
    ∧ (∀ (s : ServerState α), ((clearCaches s).requestCache).length ≤ MAX_CACHE_SIZE) := by
  refine ⟨fun c key data now h => setCachedResponse_length_le c key data now h, ?_, ?_, ?_, ?_⟩
  · intro s now img lang upd p
    cases hc : getCachedResponse s.requestCache (analyzeRequestKey img lang upd) now with
    | some d => simp [analyzeMealImageStart, hc]
    | none =>
      cases hq : s.requestQueue.find? (fun q => q.1 == analyzeRequestKey img lang upd) with
      | some q => simp [analyzeMealImageStart, hc, hq]
      | none => simp [analyzeMealImageStart, hc, hq]
  · intro s img lang upd res now h
    simpa [analyzeMealImageSettle] using
      setCachedResponse_length_le s.requestCache (analyzeRequestKey img lang upd) res now h
  · intro s img lang upd
    simp [analyzeMealImageCleanup]
  · intro s
    simp [clearCaches, MAX_CACHE_SIZE]

/-- Witness for C10: writing into a full cache keeps it at the bound. -/
theorem cache_size_invariant_witness :
    (setCachedResponse (List.replicate 100 (("k", ⟨0, 0⟩) : String × CacheEntry Nat)) "x" 5 3).length
      ≤ MAX_CACHE_SIZE :=
  (cache_size_invariant (α := Nat)).1
    (List.replicate 100 (("k", ⟨0, 0⟩) : String × CacheEntry Nat)) "x" 5 3 (by decide)

/-- C1: while an in-flight registration for a fingerprint exists, a second
call to the analysis entry point with the same fingerprint adopts the
already-registered pending promise instead of starting a new underlying
call — on the server (`analyzeMealImage`, first conjunct: after a call
registers `p1`, any later call before settlement observes
`awaitExisting p1`) and on the client (`analyzeMeal`, second conjunct). -/
theorem analyze_concurrent_dedup {α : Type} :
    (∀ (s s1 : ServerState α) (t1 t2 : Nat) (img lang : String) (upd : Option String)
        (p1 p2 : Nat),
      t1 ≤ t2 →
      analyzeMealImageStart s t1 img lang upd p1 = (.startCall p1, s1) →
      (analyzeMealImageStart s1 t2 img lang upd p2).1 = .awaitExisting p1)
    ∧ (∀ (q q1 : List (String × Nat)) (img : String) (upd : Option String) (p1 p2 : Nat),
      analyzeMealStart q img upd p1 = (.startCall p1, q1) →
      (analyzeMealStart q1 img upd p2).1 = .awaitExisting p1) := by
  constructor
  · intro s s1 t1 t2 img lang upd p1 p2 h12 h1
    cases hc : getCachedResponse s.requestCache (analyzeRequestKey img lang upd) t1 with
    | some d => simp [analyzeMealImageStart, hc] at h1
    | none =>
      cases hq : s.requestQueue.find? (fun q => q.1 == analyzeRequestKey img lang upd) with
      | some p => simp [analyzeMealImageStart, hc, hq] at h1
      | none =>
        have hs1 : s1 = { s with requestQueue :=
            s.requestQueue ++ [(analyzeRequestKey img lang upd, p1)] } := by
          simp only [analyzeMealImageStart, hc, hq] at h1
          exact (Prod.mk.injEq .. |>.mp h1).2.symm
        subst hs1
        have hc2 : getCachedResponse s.requestCache (analyzeRequestKey img lang upd) t2 = none :=
          getCachedResponse_none_mono _ _ t1 t2 h12 hc
        have hq2 : (s.requestQueue ++ [(analyzeRequestKey img lang upd, p1)]).find?
            (fun q => q.1 == analyzeRequestKey img lang upd)
            = some (analyzeRequestKey img lang upd, p1) := by
          rw [List.find?_append, hq]
          simp
        simp [analyzeMealImageStart, hc2, hq2]
  · intro q q1 img upd p1 p2 h1
    cases hq : q.find? (fun p => p.1 == clientAnalyzeKey img upd) with
    | some p => simp [analyzeMealStart, hq] at h1
    | none =>
      have hq1 : q1 = q ++ [(clientAnalyzeKey img upd, p1)] := by
        simp only [analyzeMealStart, hq] at h1
        exact (Prod.mk.injEq .. |>.mp h1).2.symm
      subst hq1
      have hq2 : (q ++ [(clientAnalyzeKey img upd, p1)]).find?
          (fun p => p.1 == clientAnalyzeKey img upd) = some (clientAnalyzeKey img upd, p1) := by
        rw [List.find?_append, hq]
        simp
      simp [analyzeMealStart, hq2]

/-- Witness for C1: from an empty server state and an empty client queue,
a first call registers, and a second identical call adopts its promise. -/
theorem analyze_concurrent_dedup_witness :
    (analyzeMealImageStart
        ((analyzeMealImageStart (⟨[], []⟩ : ServerState Nat) 0 "img" "en" none 0).2)
        0 "img" "en" none 1).1 = .awaitExisting 0
    ∧ (analyzeMealStart ((analyzeMealStart [] "img" none 0).2) "img" none 1).1
      = .awaitExisting 0 :=
  ⟨(analyze_concurrent_dedup (α := Nat)).1 ⟨[], []⟩ _ 0 0 "img" "en" none 0 1 le_rfl rfl,
   (analyze_concurrent_dedup (α := Nat)).2 [] _ "img" none 0 1 rfl⟩

/-! ## `retryRequest` unfolding lemmas -/

theorem retryRequest_ok {α : Type} (results : Nat → Except ApiError α) (attempt : Nat)
    (v : α) (h : results attempt = .ok v) :
    retryRequest results attempt = ⟨.ok v, attempt, []⟩ := by
  rw [retryRequest, h]

theorem retryRequest_ceiling {α : Type} (results : Nat → Except ApiError α) (attempt : Nat)
    (e : ApiError) (h : results attempt = .error e)
    (hge : API_CONFIG.retryAttempts ≤ attempt) :
    retryRequest results attempt = ⟨.error e, attempt, []⟩ := by
  rw [retryRequest, h]
  simp [hge]

theorem retryRequest_noRetry {α : Type} (results : Nat → Except ApiError α) (attempt : Nat)
    (e : ApiError) (h : results attempt = .error e)
    (hlt : attempt < API_CONFIG.retryAttempts)
    (hnr : (e.status == some 401 || e.status == some 403 || e.status == some 422
      || e.name == some "AbortError") = true) :
    retryRequest results attempt = ⟨.error e, attempt, []⟩ := by
  rw [retryRequest, h]
  simp [Nat.not_le.mpr hlt, hnr]

theorem retryRequest_retry {α : Type} (results : Nat → Except ApiError α) (attempt : Nat)
    (e : ApiError) (h : results attempt = .error e)
    (hlt : attempt < API_CONFIG.retryAttempts)
    (hnr : (e.status == some 401 || e.status == some 403 || e.status == some 422
      || e.name == some "AbortError") = false) :
    retryRequest results attempt =
      ⟨(retryRequest results (attempt + 1)).result,
       (retryRequest results (attempt + 1)).finalAttempt,
       min (API_CONFIG.retryDelay * 2 ^ (attempt - 1)) API_CONFIG.maxRetryDelay
         :: (retryRequest results (attempt + 1)).delays⟩ := by
  rw [retryRequest, h]
  simp [Nat.not_le.mpr hlt, hnr]


/-! ## Claim theorems: retry wrapper -/

/-- Full run of `retryRequest` from attempt 1: attempt bound, backoff
schedule, and last-error pass-through (shared helper). -/
theorem retryRequest_run_spec {α : Type} (results : Nat → Except ApiError α) :
    (retryRequest results 1).finalAttempt ≤ API_CONFIG.retryAttempts
    ∧ (retryRequest results 1).delays =
        (List.range ((retryRequest results 1).finalAttempt - 1)).map
          (fun k => min (API_CONFIG.retryDelay * 2 ^ k) API_CONFIG.maxRetryDelay)
    ∧ (∀ e, (retryRequest results 1).result = .error e →
        results (retryRequest results 1).finalAttempt = .error e) := by
  rcases h1 : results 1 with e1 | v1
  · by_cases hnr1 : (e1.status == some 401 || e1.status == some 403 || e1.status == some 422
      || e1.name == some "AbortError") = true
    · have hr := retryRequest_noRetry results 1 e1 h1 (by decide) hnr1
      rw [hr]
      refine ⟨by norm_num [API_CONFIG], by simp, ?_⟩
      intro e he
      simp only [Except.error.injEq] at he
      rw [← he]
      exact h1
    · have hnr1f : (e1.status == some 401 || e1.status == some 403 || e1.status == some 422
        || e1.name == some "AbortError") = false := by
        simpa using hnr1
      have hr := retryRequest_retry results 1 e1 h1 (by decide) hnr1f
      rw [show (1 : Nat) + 1 = 2 from rfl] at hr
      rcases h2 : results 2 with e2 | v2
      · by_cases hnr2 : (e2.status == some 401 || e2.status == some 403 || e2.status == some 422
          || e2.name == some "AbortError") = true
        · have hr2 := retryRequest_noRetry results 2 e2 h2 (by decide) hnr2
          rw [hr2] at hr
          rw [hr]
          refine ⟨by norm_num [API_CONFIG], by simp [API_CONFIG, List.range_succ], ?_⟩
          intro e he
          simp only [Except.error.injEq] at he
          rw [← he]
          exact h2
        · have hnr2f : (e2.status == some 401 || e2.status == some 403 || e2.status == some 422
            || e2.name == some "AbortError") = false := by
            simpa using hnr2
          have hr2 := retryRequest_retry results 2 e2 h2 (by decide) hnr2f
          rw [show (2 : Nat) + 1 = 3 from rfl] at hr2
          rcases h3 : results 3 with e3 | v3
          · have hr3 := retryRequest_ceiling results 3 e3 h3 (by decide)
            rw [hr3] at hr2
            rw [hr2] at hr
            rw [hr]
            refine ⟨by norm_num [API_CONFIG], by simp [API_CONFIG, List.range_succ], ?_⟩
            intro e he
            simp only [Except.error.injEq] at he
            rw [← he]
            exact h3
          · have hr3 := retryRequest_ok results 3 v3 h3
            rw [hr3] at hr2
            rw [hr2] at hr
            rw [hr]
            refine ⟨by norm_num [API_CONFIG], by simp [API_CONFIG, List.range_succ], ?_⟩
            intro e he
            simp at he
      · have hr2 := retryRequest_ok results 2 v2 h2
        rw [hr2] at hr
        rw [hr]
        refine ⟨by norm_num [API_CONFIG], by simp [API_CONFIG, List.range_succ], ?_⟩
        intro e he
        simp at he
  · have hr := retryRequest_ok results 1 v1 h1
    rw [hr]
    refine ⟨by norm_num [API_CONFIG], by simp, ?_⟩
    intro e he
    simp at he

/-- C3: through the retry wrapper the total number of attempts never exceeds
the configured ceiling `API_CONFIG.retryAttempts = 3`; the delay inserted
between attempt `k` and attempt `k+1` (entry `k-1` of `delays`, attempts
counted from 1) equals `min(retryDelay * 2^(k-1), maxRetryDelay)`, i.e.
`min(1000 * 2^(k-1), 5000)` ms; and exhausting retries surfaces the last
underlying error unchanged: an error result is exactly the final attempt's
outcome. -/
theorem retry_bounded_backoff {α : Type} (results : Nat → Except ApiError α) :
    (retryRequest results 1).finalAttempt ≤ API_CONFIG.retryAttempts
    ∧ (retryRequest results 1).delays =
        (List.range ((retryRequest results 1).finalAttempt - 1)).map
          (fun k => min (API_CONFIG.retryDelay * 2 ^ k) API_CONFIG.maxRetryDelay)
    ∧ (∀ e, (retryRequest results 1).result = .error e →
        results (retryRequest results 1).finalAttempt = .error e) :=
  retryRequest_run_spec results

/-- Witness for C3: three identical retryable failures (HTTP 500) exhaust
the ceiling; the surfaced error is the last attempt's error. -/
theorem retry_bounded_backoff_witness :
    (retryRequest (fun _ => (.error ⟨some 500, none⟩ : Except ApiError Unit)) 1).finalAttempt
      ≤ API_CONFIG.retryAttempts
    ∧ (fun _ => (.error ⟨some 500, none⟩ : Except ApiError Unit))
        ((retryRequest (fun _ => (.error ⟨some 500, none⟩ : Except ApiError Unit)) 1).finalAttempt)
      = .error ⟨some 500, none⟩ := by
  have h := retry_bounded_backoff (fun _ => (.error ⟨some 500, none⟩ : Except ApiError Unit))
  refine ⟨h.1, h.2.2 ⟨some 500, none⟩ ?_⟩
  have e1 := retryRequest_retry (fun _ => (.error ⟨some 500, none⟩ : Except ApiError Unit))
    1 ⟨some 500, none⟩ rfl (by decide) (by decide)
  have e2 := retryRequest_retry (fun _ => (.error ⟨some 500, none⟩ : Except ApiError Unit))
    2 ⟨some 500, none⟩ rfl (by decide) (by decide)
  have e3 := retryRequest_ceiling (fun _ => (.error ⟨some 500, none⟩ : Except ApiError Unit))
    3 ⟨some 500, none⟩ rfl (by decide)
  rw [show (1 : Nat) + 1 = 2 from rfl] at e1
  rw [show (2 : Nat) + 1 = 3 from rfl] at e2
  rw [e1, e2, e3]

/-- C5: a failure with HTTP status 401, 403 or 422 is never retried: the
wrapper makes exactly one attempt and rethrows that error; additionally a
401 response makes the response interceptor clear the stored auth token on
both platforms (web `localStorage`, native SecureStore and AsyncStorage). -/
theorem auth_errors_not_retried {α : Type} (results : Nat → Except ApiError α)
    (e : ApiError) (store : TokenStore)
    (h1 : results 1 = .error e)
    (hstat : e.status = some 401 ∨ e.status = some 403 ∨ e.status = some 422) :
    retryRequest results 1 = ⟨.error e, 1, []⟩
    ∧ (e.status = some 401 →
        (responseErrorInterceptor true store e).1.webToken = none
        ∧ (responseErrorInterceptor false store e).1.secureToken = none
        ∧ (responseErrorInterceptor false store e).1.asyncToken = none
        ∧ (responseErrorInterceptor true store e).2 = e
        ∧ (responseErrorInterceptor false store e).2 = e) := by
  have hnr : (e.status == some 401 || e.status == some 403 || e.status == some 422
      || e.name == some "AbortError") = true := by
    rcases hstat with h | h | h <;> simp [h]
  refine ⟨retryRequest_noRetry results 1 e h1 (by decide) hnr, ?_⟩
  intro h401
  have hb : (e.status == some 401) = true := by simp [h401]
  simp [responseErrorInterceptor, hb]

/-- Witness for C5: a 401 failure is rethrown after one attempt and the
web token is cleared. -/
theorem auth_errors_not_retried_witness :
    retryRequest (fun _ => (.error ⟨some 401, none⟩ : Except ApiError Unit)) 1
      = ⟨.error ⟨some 401, none⟩, 1, []⟩
    ∧ (responseErrorInterceptor true ⟨some "tok", some "tok", some "tok"⟩
        ⟨some 401, none⟩).1.webToken = none := by
  have h := auth_errors_not_retried (fun _ => (.error ⟨some 401, none⟩ : Except ApiError Unit))
    ⟨some 401, none⟩ ⟨some "tok", some "tok", some "tok"⟩ rfl (Or.inl rfl)
  exact ⟨h.1, (h.2 rfl).1⟩

/-- C6 counterexample: an error whose `name` is `"AbortError"` and whose
status is none of 401/403/422 (so its spec error kind is not
Unauthorized/Forbidden and not ValidationFailed) is nevertheless not
retried: `retryRequest` makes exactly one attempt and rethrows it. -/
theorem retryable_kinds_counterexample :
    ((⟨none, some "AbortError"⟩ : ApiError).status ≠ some 401
      ∧ (⟨none, some "AbortError"⟩ : ApiError).status ≠ some 403
      ∧ (⟨none, some "AbortError"⟩ : ApiError).status ≠ some 422)
    ∧ retryRequest (fun _ => (.error ⟨none, some "AbortError"⟩ : Except ApiError Unit)) 1
      = ⟨.error ⟨none, some "AbortError"⟩, 1, []⟩ :=
  ⟨by decide,
   retryRequest_noRetry (fun _ => (.error ⟨none, some "AbortError"⟩ : Except ApiError Unit))
     1 ⟨none, some "AbortError"⟩ rfl (by decide) (by decide)⟩

theorem retryRequest_finalAttempt_ge {α : Type} (results : Nat → Except ApiError α) :
    ∀ attempt, attempt ≤ (retryRequest results attempt).finalAttempt := by
  have key : ∀ n attempt, API_CONFIG.retryAttempts - attempt ≤ n →
      attempt ≤ (retryRequest results attempt).finalAttempt := by
    intro n
    induction n with
    | zero =>
      intro attempt hle
      rcases h : results attempt with e | v
      · have hge : API_CONFIG.retryAttempts ≤ attempt := by omega
        rw [retryRequest_ceiling _ _ _ h hge]
      · rw [retryRequest_ok _ _ _ h]
    | succ n ih =>
      intro attempt hle
      rcases h : results attempt with e | v
      · by_cases hge : API_CONFIG.retryAttempts ≤ attempt
        · rw [retryRequest_ceiling _ _ _ h hge]
        · by_cases hnr : (e.status == some 401 || e.status == some 403 || e.status == some 422
            || e.name == some "AbortError") = true
          · rw [retryRequest_noRetry _ _ _ h (Nat.not_le.mp hge) hnr]
          · rw [retryRequest_retry _ _ _ h (Nat.not_le.mp hge) (by simpa using hnr)]
            have hrec := ih (attempt + 1) (by omega)
            exact le_trans (Nat.le_succ _) hrec
      · rw [retryRequest_ok _ _ _ h]
  exact fun attempt => key _ attempt le_rfl

/-- C6 (amended): every failure whose HTTP status is not 401/403/422 *and*
whose error name is not `"AbortError"` is retried — the wrapper proceeds to
a further attempt rather than failing after the first — and with such
failures throughout it continues up to the attempt ceiling of 3, with
backoff delays 1000 ms and 2000 ms. (The code also refuses to retry
`AbortError`-named failures, which the claim's kind list would retry.) -/
theorem retryable_errors_retried {α : Type} (results : Nat → Except ApiError α) :
    (∀ e1, results 1 = .error e1 →
      e1.status ≠ some 401 → e1.status ≠ some 403 → e1.status ≠ some 422 →
      e1.name ≠ some "AbortError" →
      2 ≤ (retryRequest results 1).finalAttempt)
    ∧ (∀ e1 e2 e3, results 1 = .error e1 → results 2 = .error e2 → results 3 = .error e3 →
      (e1.status == some 401 || e1.status == some 403 || e1.status == some 422
        || e1.name == some "AbortError") = false →
      (e2.status == some 401 || e2.status == some 403 || e2.status == some 422
        || e2.name == some "AbortError") = false →
      retryRequest results 1 = ⟨.error e3, 3, [1000, 2000]⟩) := by
  constructor
  · intro e1 h1 hs1 hs2 hs3 hn
    have hnrf : (e1.status == some 401 || e1.status == some 403 || e1.status == some 422
        || e1.name == some "AbortError") = false := by
      simp only [Bool.or_eq_false_iff]
      exact ⟨⟨⟨beq_eq_false_iff_ne.mpr hs1, beq_eq_false_iff_ne.mpr hs2⟩,
        beq_eq_false_iff_ne.mpr hs3⟩, beq_eq_false_iff_ne.mpr hn⟩
    rw [retryRequest_retry results 1 e1 h1 (by decide) hnrf]
    exact le_trans (by norm_num) (retryRequest_finalAttempt_ge results (1 + 1))
  · intro e1 e2 e3 h1 h2 h3 hnr1 hnr2
    have r1 := retryRequest_retry results 1 e1 h1 (by decide) hnr1
    have r2 := retryRequest_retry results 2 e2 h2 (by decide) hnr2
    have r3 := retryRequest_ceiling results 3 e3 h3 (by decide)
    rw [show (1 : Nat) + 1 = 2 from rfl] at r1
    rw [show (2 : Nat) + 1 = 3 from rfl] at r2
    rw [r3] at r2
    rw [r2] at r1
    rw [r1]
    norm_num [API_CONFIG]

/-- Witness for C6 (amended): retryable HTTP 500 failures on every attempt
drive the wrapper to the full ceiling with delays 1000 and 2000 ms. -/
theorem retryable_errors_retried_witness :
    2 ≤ (retryRequest (fun _ => (.error ⟨some 500, none⟩ : Except ApiError Unit)) 1).finalAttempt
    ∧ retryRequest (fun _ => (.error ⟨some 500, none⟩ : Except ApiError Unit)) 1
      = ⟨.error ⟨some 500, none⟩, 3, [1000, 2000]⟩ := by
  have h := retryable_errors_retried (fun _ => (.error ⟨some 500, none⟩ : Except ApiError Unit))
  exact ⟨h.1 ⟨some 500, none⟩ rfl (by decide) (by decide) (by decide) (by decide),
    h.2 ⟨some 500, none⟩ ⟨some 500, none⟩ ⟨some 500, none⟩ rfl rfl rfl (by decide) (by decide)⟩

/-- Last-error pass-through of `retryRequest` (shared helper, a projection
of `retryRequest_run_spec`). -/
theorem retryRequest_last_error {α : Type} (results : Nat → Except ApiError α) (e : ApiError)
    (h : (retryRequest results 1).result = .error e) :
    results (retryRequest results 1).finalAttempt = .error e :=
  (retryRequest_run_spec results).2.2 e h

/-- C2 counterexample: an upstream failure with code
`"rate_limit_exceeded"` makes the analysis operation
(`_performMealAnalysis`) rethrow an error rather than return a result, so
the analysis operation does not always return a result to its caller. -/
theorem analysis_always_result_counterexample :
    performMealAnalysis (fun _ => none) true (.failure ⟨some "rate_limit_exceeded", ""⟩)
      "english" none (fun _ => 0)
      = .error "AI service is busy. Please try again in a moment." := rfl

/-- C2 (amended): a `ParseFailed` upstream response makes the analysis
return the Fallback Generator result instead of propagating; the analysis
returns a result for every upstream failure except those with code
`rate_limit_exceeded` or `insufficient_quota` or a message containing
`"timeout"`, which are rethrown as mapped errors; every successfully
transported response yields a result; and plain pass-through API calls
surface the underlying error unchanged (the retry wrapper's error result
is exactly the final attempt's underlying error). -/
theorem parse_failure_degrades_api_propagates :
    (∀ (parse : String → Option JSVal) (content lang : String) (rand : Nat → Rat),
      parse content = none →
      parseAnalysisResponse parse content lang rand
        = generateEnhancedFallbackAnalysis lang none rand)
    ∧ (∀ (parse : String → Option JSVal) (lang : String) (upd : Option String)
        (rand : Nat → Rat) (e : UpstreamError),
      e.code ≠ some "rate_limit_exceeded" → e.code ≠ some "insufficient_quota" →
      jsIncludes e.message "timeout" = false →
      performMealAnalysis parse true (.failure e) lang upd rand
        = .ok (generateEnhancedFallbackAnalysis lang upd rand))
    ∧ (∀ (parse : String → Option JSVal) (content : Option String) (lang : String)
        (upd : Option String) (rand : Nat → Rat),
      (performMealAnalysis parse true (.success content) lang upd rand).isOk = true)
    ∧ (∀ (results : Nat → Except ApiError Unit) (e : ApiError),
      (retryRequest results 1).result = .error e →
      results (retryRequest results 1).finalAttempt = .error e) := by
  refine ⟨?_, ?_, ?_, ?_⟩
  · intro parse content lang rand hp
    simp [parseAnalysisResponse, hp]
  · intro parse lang upd rand e hc1 hc2 hm
    have b1 : (e.code == some "rate_limit_exceeded") = false := beq_eq_false_iff_ne.mpr hc1
    have b2 : (e.code == some "insufficient_quota") = false := beq_eq_false_iff_ne.mpr hc2
    simp [performMealAnalysis, b1, b2, hm]
  · intro parse content lang upd rand
    cases content with
    | none => rfl
    | some c => rfl
  · exact fun results e h => retryRequest_last_error results e h

/-- Witness for C2 (amended): a parse failure yields the fallback result; a
plain 500 failure surfaces through the retry wrapper unchanged. -/
theorem parse_failure_degrades_api_propagates_witness :
    parseAnalysisResponse (fun _ => none) "garbage" "english" (fun _ => 0)
      = generateEnhancedFallbackAnalysis "english" none (fun _ => 0)
    ∧ performMealAnalysis (fun _ => none) true (.failure ⟨some "server_error", ""⟩)
        "english" none (fun _ => 0)
      = .ok (generateEnhancedFallbackAnalysis "english" none (fun _ => 0))
    ∧ (performMealAnalysis (fun _ => none) true (.success (some "x")) "english" none
        (fun _ => 0)).isOk = true := by
  have h := parse_failure_degrades_api_propagates
  exact ⟨h.1 (fun _ => none) "garbage" "english" (fun _ => 0) rfl,
    h.2.1 (fun _ => none) "english" none (fun _ => 0) ⟨some "server_error", ""⟩
      (by decide) (by decide) (by decide),
    h.2.2.1 (fun _ => none) (some "x") "english" none (fun _ => 0)⟩

/-! ## Claim theorems: Normalizer and Fallback Generator -/

/-- C4: for every parsed raw response object, the Normalizer output has
every required numeric field (calories, protein, carbs, fat, fiber, sugar,
sodium) defined as a number — each equal to `Number(raw.field) || 0` — and
confidence lies in `[1, 100]`, defaulting to 75 when absent or non-numeric
and clamped when present; in particular
`{"calories": "450", "confidence": 150}` normalizes to `calories = 450`,
`confidence = 100`. -/
theorem normalize_required_fields (v : JSVal) (lang : String) :
    (1 ≤ (normalizeAnalysis v lang).confidence ∧ (normalizeAnalysis v lang).confidence ≤ 100)
    ∧ (jsNumber (jsGet v "confidence") = none → (normalizeAnalysis v lang).confidence = 75)
    ∧ (normalizeAnalysis v lang).calories = jsNumberOr (jsGet v "calories") 0
    ∧ (normalizeAnalysis v lang).protein = jsNumberOr (jsGet v "protein") 0
    ∧ (normalizeAnalysis v lang).carbs = jsNumberOr (jsGet v "carbs") 0
    ∧ (normalizeAnalysis v lang).fat = jsNumberOr (jsGet v "fat") 0
    ∧ (normalizeAnalysis v lang).fiber = jsNumberOr (jsGet v "fiber") 0
    ∧ (normalizeAnalysis v lang).sugar = jsNumberOr (jsGet v "sugar") 0
    ∧ (normalizeAnalysis v lang).sodium = jsNumberOr (jsGet v "sodium") 0
    ∧ (normalizeAnalysis (JSVal.obj [("calories", .str "450"), ("confidence", .num 150)])
        "english").calories = 450
    ∧ (normalizeAnalysis (JSVal.obj [("calories", .str "450"), ("confidence", .num 150)])
        "english").confidence = 100 := by
  refine ⟨⟨?_, ?_⟩, ?_, rfl, rfl, rfl, rfl, rfl, rfl, rfl, ?_, ?_⟩
  · exact le_min (by norm_num) (le_max_left 1 _)
  · exact min_le_left _ _
  · intro h
    show min 100 (max 1 (jsNumberOr (jsGet v "confidence") 75)) = 75
    rw [jsNumberOr, h]
    rw [max_eq_right (by norm_num : (1 : Rat) ≤ 75),
      min_eq_right (by norm_num : (75 : Rat) ≤ 100)]
  · have h1 : strToNumber "450" = some ((1 : Rat) * ((450 : Nat) : Rat)) := rfl
    show jsNumberOr (JSVal.str "450") 0 = 450
    rw [jsNumberOr]
    simp [jsNumber, h1]
  · show min 100 (max 1 (jsNumberOr (JSVal.num 150) 75)) = 100
    have h150 : jsNumberOr (JSVal.num 150) 75 = 150 := by
      simp [jsNumberOr, jsNumber]
    rw [h150, max_eq_right (by norm_num : (1 : Rat) ≤ 150),
      min_eq_left (by norm_num : (100 : Rat) ≤ 150)]

/-- Witness for C4: an empty raw object has no confidence field, so the
Normalizer defaults it to 75. -/
theorem normalize_required_fields_witness :
    (normalizeAnalysis (JSVal.obj []) "english").confidence = 75 :=
  (normalize_required_fields (JSVal.obj []) "english").2.1 rfl

/-- C9: for every language, optional update text and random source drawing
values in `[0, 1)`, the Fallback Generator produces confidence exactly 65
and calories in `[300, 700]` (in fact `300 + floor(rand*400) ≤ 699`); and
an unparsable raw response yields exactly this fallback result, so its
confidence is 65. -/
theorem fallback_confidence_calories (lang : String) (upd : Option String) (rand : Nat → Rat)
    (hr : ∀ i, 0 ≤ rand i ∧ rand i < 1) :
    (generateEnhancedFallbackAnalysis lang upd rand).confidence = 65
    ∧ 300 ≤ (generateEnhancedFallbackAnalysis lang upd rand).calories
    ∧ (generateEnhancedFallbackAnalysis lang upd rand).calories ≤ 700
    ∧ (∀ (parse : String → Option JSVal) (content : String), parse content = none →
      (parseAnalysisResponse parse content lang rand).confidence = 65
      ∧ 300 ≤ (parseAnalysisResponse parse content lang rand).calories
      ∧ (parseAnalysisResponse parse content lang rand).calories ≤ 700) := by
  have h0 := hr 0
  have hnn : (0 : Int) ≤ (rand 0 * 400).floor := by
    rw [Rat.le_floor]
    push_cast
    exact mul_nonneg h0.1 (by norm_num)
  have hub : (rand 0 * 400).floor ≤ 399 := by
    by_contra hc
    push_neg at hc
    have h400 : (400 : Int) ≤ (rand 0 * 400).floor := by omega
    have := Rat.le_floor.mp h400
    push_cast at this
    nlinarith [h0.2]
  have hlow : ∀ u : Option String,
      300 ≤ (generateEnhancedFallbackAnalysis lang u rand).calories := by
    intro u
    show (300 : Rat) ≤ 300 + jsFloor (rand 0 * 400)
    unfold jsFloor
    have : (0 : Rat) ≤ ((rand 0 * 400).floor : Rat) := by exact_mod_cast hnn
    linarith
  have hhigh : ∀ u : Option String,
      (generateEnhancedFallbackAnalysis lang u rand).calories ≤ 700 := by
    intro u
    show (300 : Rat) + jsFloor (rand 0 * 400) ≤ 700
    unfold jsFloor
    have : ((rand 0 * 400).floor : Rat) ≤ 399 := by exact_mod_cast hub
    linarith
  refine ⟨rfl, hlow upd, hhigh upd, ?_⟩
  intro parse content hp
  have hfb : parseAnalysisResponse parse content lang rand
      = generateEnhancedFallbackAnalysis lang none rand := by
    simp [parseAnalysisResponse, hp]
  rw [hfb]
  exact ⟨rfl, hlow none, hhigh none⟩

/-- Witness for C9: the all-zero random source yields confidence 65 and
calories 300. -/
theorem fallback_confidence_calories_witness :
    (generateEnhancedFallbackAnalysis "english" none (fun _ => 0)).confidence = 65
    ∧ 300 ≤ (generateEnhancedFallbackAnalysis "english" none (fun _ => 0)).calories
    ∧ (generateEnhancedFallbackAnalysis "english" none (fun _ => 0)).calories ≤ 700 := by
  have h := fallback_confidence_calories "english" none (fun _ => 0)
    (fun i => ⟨le_rfl, zero_lt_one⟩)
  exact ⟨h.1, h.2.1, h.2.2.1⟩
